import Mathlib

/-!
Verification of the order-item production-status core of the pallet
manufacturing backend (`src/server.py`): the order status aggregator,
the item lifecycle endpoints, the production-session logging and
completion rules, the QA gate, item splitting, stock-run completion
and the station capacity check.

Statuses are modelled as the strings the program stores ('T', 'C', 'R',
'P', 'F', 'dispatched', 'delivered', 'collected').  Database rows are
records, tables are lists of rows, and each HTTP handler is a function
from the database state (plus request arguments) to `Except String DB`:
every handler in scope validates before its first write, so an error
result coincides with an unchanged database, exactly as in the source
where a rejection returns before any `conn.execute`.  SQLite REAL
columns (prices, line totals) are modelled as rationals; the request
bodies involved carry integer-valued decimals, where float arithmetic
is exact.  Tables that carry no weight in the verified properties
(workers, pause logs, audit, notifications, delivery logistics) are
omitted.
-/

/-- `compute_order_status` from `src/server.py` (lines 1305-1344):
derive an order's status from its current persisted status and the list
of its items' statuses.  The two SQL reads are passed in as arguments. -/
def compute_order_status (current : String) (items : List String) : String :=
  if current == "delivered" || current == "collected" then current
  else if items.isEmpty then current
  else if (items.all fun s => s == "dispatched" || s == "F") &&
          (items.any fun s => s == "dispatched") then "dispatched"
  else if items.all (fun s => s == "F") then "F"
  else if items.any (fun s => s == "P") then "P"
  else if items.any (fun s => s == "R") then "R"
  else if items.any (fun s => s == "C") then "C"
  else "T"

/-- The progress string computed by `sync_order_status` (lines 1347-1361):
`"{finished}/{total} items complete"` with finished counting items whose
status is 'F' or 'dispatched'. -/
def order_progress (items : List String) : String :=
  let total := items.length
  let finished := items.countP fun s => s == "F" || s == "dispatched"
  if total > 0 then
    toString finished ++ "/" ++ toString total ++ " items complete"
  else "0/0 items complete"

/-- The aggregation precedence exactly as the specification words it
(spec 4.2, rules 1-7 plus the empty-order rule), written with
propositional quantifiers over the item multiset.  Used to compare the
implementation against the spec sentence by sentence. -/
def aggregatorSpec (current : String) (items : List String) : String :=
  if current = "delivered" ∨ current = "collected" then current
  else if items = [] then current
  else if (∀ s ∈ items, s = "F" ∨ s = "dispatched") ∧ (∃ s ∈ items, s = "dispatched")
    then "dispatched"
  else if ∀ s ∈ items, s = "F" then "F"
  else if ∃ s ∈ items, s = "P" then "P"
  else if ∃ s ∈ items, s = "R" then "R"
  else if ∃ s ∈ items, s = "C" then "C"
  else "T"

lemma allDF_iff (items : List String) :
    ((items.all fun s => s == "dispatched" || s == "F") &&
     (items.any fun s => s == "dispatched")) = true ↔
    (∀ s ∈ items, s = "F" ∨ s = "dispatched") ∧ (∃ s ∈ items, s = "dispatched") := by
  simp only [Bool.and_eq_true, List.all_eq_true, List.any_eq_true, Bool.or_eq_true,
    beq_iff_eq]
  constructor
  · rintro ⟨ha, hb⟩
    exact ⟨fun s hs => (ha s hs).symm, hb⟩
  · rintro ⟨ha, hb⟩
    exact ⟨fun s hs => (ha s hs).symm, hb⟩

/-- C1: for every current order status and every multiset of item
statuses, `compute_order_status` returns exactly what the spec's
precedence list dictates: the current status unchanged when it is
'delivered' or 'collected' or when there are no items; otherwise
'dispatched' when every item is 'F' or 'dispatched' and some item is
'dispatched'; else 'F' when all items are 'F'; else 'P' when any item
is 'P'; else 'R' when any is 'R'; else 'C' when any is 'C'; else 'T'. -/
theorem compute_order_status_matches_spec (current : String) (items : List String) :
    compute_order_status current items = aggregatorSpec current items := by
  unfold compute_order_status aggregatorSpec
  by_cases h1 : current = "delivered" ∨ current = "collected"
  · rw [if_pos (by simpa using h1), if_pos h1]
  · rw [if_neg (by simpa using h1), if_neg h1]
    by_cases h2 : items = []
    · rw [if_pos (by simpa using h2), if_pos h2]
    · rw [if_neg (by simpa using h2), if_neg h2]
      by_cases h3 : (∀ s ∈ items, s = "F" ∨ s = "dispatched") ∧ ∃ s ∈ items, s = "dispatched"
      · rw [if_pos ((allDF_iff items).mpr h3), if_pos h3]
      · rw [if_neg (fun hb => h3 ((allDF_iff items).mp hb)), if_neg h3]
        by_cases h4 : ∀ s ∈ items, s = "F"
        · rw [if_pos (by simpa using h4), if_pos h4]
        · rw [if_neg (by simpa using h4), if_neg h4]
          by_cases h5 : ∃ s ∈ items, s = "P"
          · rw [if_pos (by simpa using h5), if_pos h5]
          · rw [if_neg (by simpa using h5), if_neg h5]
            by_cases h6 : ∃ s ∈ items, s = "R"
            · rw [if_pos (by simpa using h6), if_pos h6]
            · rw [if_neg (by simpa using h6), if_neg h6]
              by_cases h7 : ∃ s ∈ items, s = "C"
              · rw [if_pos (by simpa using h7), if_pos h7]
              · rw [if_neg (by simpa using h7), if_neg h7]

/-- C5 counterexample: an order persisted as 'dispatched' is NOT sticky
under recomputation — with a single item in status 'P' the aggregator
returns 'P', changing the order status. -/
theorem dispatched_not_sticky_cex :
    compute_order_status "dispatched" ["P"] = "P" ∧ ("P" : String) ≠ "dispatched" := by
  constructor
  · rfl
  · decide

/-- C5 amended: only the terminal logistics statuses 'delivered' and
'collected' are sticky — for those, recomputation from any multiset of
item statuses leaves the order status unchanged.  An order persisted as
'dispatched' is recomputed from its items like any other. -/
theorem delivered_collected_sticky (current : String) (items : List String)
    (h : current = "delivered" ∨ current = "collected") :
    compute_order_status current items = current := by
  unfold compute_order_status
  rcases h with h | h <;> simp [h]

/-- C5 amended, witness at a concrete input. -/
theorem delivered_collected_sticky_witness :
    compute_order_status "delivered" ["P", "C"] = "delivered" :=
  delivered_collected_sticky "delivered" ["P", "C"] (Or.inl rfl)

/-- C10 counterexample: for an order with three items in statuses
{C, R, F}, the aggregator returns 'R' (the any-'R' rule fires before
the any-'C' rule), not 'C' as the scenario claims. -/
theorem three_items_crf_cex :
    compute_order_status "T" ["C", "R", "F"] = "R" ∧ ("R" : String) ≠ "C" := by
  constructor
  · rfl
  · decide

/-- C10 amended: for an order with exactly 3 items in statuses
{C, R, F} and any non-sticky current status, the aggregator returns 'R'
(highest-priority-present per the precedence: any 'R' beats any 'C'),
and the recomputed progress string is "1/3 items complete". -/
theorem three_items_crf (current : String)
    (h1 : current ≠ "delivered") (h2 : current ≠ "collected") :
    compute_order_status current ["C", "R", "F"] = "R" ∧
    order_progress ["C", "R", "F"] = "1/3 items complete" := by
  constructor
  · unfold compute_order_status
    simp [h1, h2]
  · decide

/-- C10 amended, witness at a concrete input. -/
theorem three_items_crf_witness :
    compute_order_status "T" ["C", "R", "F"] = "R" ∧
    order_progress ["C", "R", "F"] = "1/3 items complete" :=
  three_items_crf "T" (by decide) (by decide)

/-! ## Data model

Rows of the tables the core reads and writes (`orders`, `order_items`,
`production_sessions`, `production_logs`, `qa_inspections`,
`schedule_entries`, `station_capacity`, `inventory`), restricted to the
columns the verified handlers touch.  Timestamps are modelled as
presence flags; user identifiers recorded by the handlers are not
tracked (authentication is a boolean); error messages are abbreviated
from the source text. -/

structure OrderRow where
  id : Nat
  status : String
  progress : String
  is_stock_run : Bool
  deriving Repr, DecidableEq

structure ItemRow where
  id : Nat
  order_id : Nat
  sku_id : Option Nat
  sku_code : Option String
  product_name : Option String
  quantity : Int
  produced_quantity : Int
  unit_price : Rat
  line_total : Rat
  status : String
  zone_id : Option Nat
  station_id : Option Nat
  scheduled_date : Option String
  eta_date : Option String
  drawing_number : Option String
  special_instructions : Option String
  split_from_item_id : Option Nat
  docking_completed_at : Bool
  deriving Repr, DecidableEq

structure SessionRow where
  id : Nat
  order_item_id : Option Nat
  status : String
  produced_quantity : Int
  target_quantity : Option Int
  deriving Repr, DecidableEq

structure LogRow where
  session_id : Nat
  quantity_change : Int
  running_total : Int
  deriving Repr, DecidableEq

structure InspectionRow where
  id : Nat
  order_item_id : Option Nat
  session_id : Option Nat
  inspection_type : String
  batch_size : Option Int
  passed : Option Int
  inspector_id : Option Nat
  notes : Option String
  deriving Repr, DecidableEq

structure ScheduleRow where
  station_id : Option Nat
  scheduled_date : String
  planned_quantity : Option Int
  status : String
  deriving Repr, DecidableEq

structure StationCapacityRow where
  station_id : Nat
  max_units_per_day : Int
  deriving Repr, DecidableEq

structure InventoryRow where
  sku_id : Nat
  units_on_hand : Int
  deriving Repr, DecidableEq

structure DB where
  orders : List OrderRow
  order_items : List ItemRow
  production_sessions : List SessionRow
  production_logs : List LogRow
  qa_inspections : List InspectionRow
  schedule_entries : List ScheduleRow
  station_capacity : List StationCapacityRow
  inventory : List InventoryRow
  next_item_id : Nat
  next_session_id : Nat
  next_inspection_id : Nat
  deriving Repr, DecidableEq

def findOrder (db : DB) (oid : Nat) : Option OrderRow :=
  db.orders.find? fun o => o.id == oid

def findItem (db : DB) (iid : Nat) : Option ItemRow :=
  db.order_items.find? fun it => it.id == iid

def findSession (db : DB) (sid : Nat) : Option SessionRow :=
  db.production_sessions.find? fun s => s.id == sid

def findInspection (db : DB) (iid : Nat) : Option InspectionRow :=
  db.qa_inspections.find? fun q => q.id == iid

/-- `SELECT ... FROM order_items WHERE order_id=?`. -/
def itemsOf (db : DB) (oid : Nat) : List ItemRow :=
  db.order_items.filter fun it => it.order_id == oid

def itemStatusesOf (db : DB) (oid : Nat) : List String :=
  (itemsOf db oid).map fun it => it.status

/-- `compute_order_status(conn, order_id)` including its two SQL reads
(an absent order yields 'T', as in the source). -/
def db_compute_order_status (db : DB) (oid : Nat) : String :=
  match findOrder db oid with
  | none => "T"
  | some o => compute_order_status o.status (itemStatusesOf db oid)

/-- `sync_order_status` (lines 1347-1361): recompute and persist
`orders.status` and the progress string from the item statuses. -/
def db_sync_order_status (db : DB) (oid : Nat) : DB :=
  let ns := db_compute_order_status db oid
  let pg := order_progress (itemStatusesOf db oid)
  { db with orders := db.orders.map fun o =>
      if o.id == oid then { o with status := ns, progress := pg } else o }

def mapItems (db : DB) (f : ItemRow → ItemRow) : DB :=
  { db with order_items := db.order_items.map f }

def statusOfItem (db : DB) (iid : Nat) : Option String :=
  (findItem db iid).map fun it => it.status

def orderStatusOf (db : DB) (oid : Nat) : Option String :=
  (findOrder db oid).map fun o => o.status

def progressOf (db : DB) (oid : Nat) : Option String :=
  (findOrder db oid).map fun o => o.progress

def dockingDoneOf (db : DB) (iid : Nat) : Option Bool :=
  (findItem db iid).map fun it => it.docking_completed_at

def quantityOfItem (db : DB) (iid : Nat) : Option Int :=
  (findItem db iid).map fun it => it.quantity

def lineTotalOfItem (db : DB) (iid : Nat) : Option Rat :=
  (findItem db iid).map fun it => it.line_total

/-! ## Handlers

Each handler returns the resulting database together with `some`
error message on rejection.  Every rejection in these handlers happens
before the first write in the source, so a rejecting call leaves the
database exactly as it was. -/

def validOrderStatuses : List String :=
  ["T", "C", "R", "P", "F", "dispatched", "delivered", "collected"]

/-- The SQLite CHECK constraint on `order_items.status`. -/
def itemStatusCheck : List String :=
  ["T", "C", "R", "P", "F", "dispatched"]

/-- `PUT /orders/:id/status` (lines 1805-1843): the general order-level
status update, with the docking gate rejecting C to R. -/
def updateOrderStatus (db : DB) (authed : Bool) (oid : Nat) (new_status : String) :
    DB × Option String :=
  if !authed then (db, some "Authentication required")
  else if !(validOrderStatuses.contains new_status) then (db, some "Invalid status")
  else
    match findOrder db oid with
    | none => (db, some "Order not found")
    | some row =>
      if row.status == "C" && new_status == "R" then
        (db, some "Cannot promote C to R directly. Use Docking Complete action instead - docking is a mandatory gate.")
      else if new_status == "dispatched" || new_status == "delivered" ||
              new_status == "collected" then
        let db1 := { db with orders := db.orders.map fun o =>
          if o.id == oid then { o with status := new_status } else o }
        if new_status == "dispatched" then
          (mapItems db1 fun it =>
            if it.order_id == oid && it.status == "F" then
              { it with status := "dispatched" } else it, none)
        else (db1, none)
      else if new_status == "P" then
        let db1 := mapItems db fun it =>
          if it.order_id == oid && it.status == "R" then { it with status := "P" } else it
        (db_sync_order_status db1 oid, none)
      else if new_status == "F" then
        let db1 := mapItems db fun it =>
          if it.order_id == oid && !(it.status == "dispatched") then
            { it with status := "F" } else it
        (db_sync_order_status db1 oid, none)
      else
        ({ db with orders := db.orders.map fun o =>
          if o.id == oid then { o with status := new_status } else o }, none)

/-- Request body of `PUT /order-items/:id`: the updatable columns the
handler copies straight into the UPDATE (a `none` field is absent from
the request). -/
structure ItemUpdateBody where
  sku_id : Option Nat := none
  sku_code : Option String := none
  product_name : Option String := none
  quantity : Option Int := none
  produced_quantity : Option Int := none
  unit_price : Option Rat := none
  line_total : Option Rat := none
  status : Option String := none
  zone_id : Option Nat := none
  station_id : Option Nat := none
  scheduled_date : Option String := none
  eta_date : Option String := none
  drawing_number : Option String := none
  special_instructions : Option String := none
  deriving Repr, DecidableEq

def ItemUpdateBody.isEmptyBody (b : ItemUpdateBody) : Bool :=
  b.sku_id.isNone && b.sku_code.isNone && b.product_name.isNone &&
  b.quantity.isNone && b.produced_quantity.isNone && b.unit_price.isNone &&
  b.line_total.isNone && b.status.isNone && b.zone_id.isNone &&
  b.station_id.isNone && b.scheduled_date.isNone && b.eta_date.isNone &&
  b.drawing_number.isNone && b.special_instructions.isNone

def fieldUpd {α : Type} (cur : α) : Option α → α
  | none => cur
  | some v => v

def fieldUpdOpt {α : Type} (cur : Option α) : Option α → Option α
  | none => cur
  | some v => some v

def applyItemBody (b : ItemUpdateBody) (it : ItemRow) : ItemRow :=
  { it with
    sku_id := fieldUpdOpt it.sku_id b.sku_id
    sku_code := fieldUpdOpt it.sku_code b.sku_code
    product_name := fieldUpdOpt it.product_name b.product_name
    quantity := fieldUpd it.quantity b.quantity
    produced_quantity := fieldUpd it.produced_quantity b.produced_quantity
    unit_price := fieldUpd it.unit_price b.unit_price
    line_total := fieldUpd it.line_total b.line_total
    status := fieldUpd it.status b.status
    zone_id := fieldUpdOpt it.zone_id b.zone_id
    station_id := fieldUpdOpt it.station_id b.station_id
    scheduled_date := fieldUpdOpt it.scheduled_date b.scheduled_date
    eta_date := fieldUpdOpt it.eta_date b.eta_date
    drawing_number := fieldUpdOpt it.drawing_number b.drawing_number
    special_instructions := fieldUpdOpt it.special_instructions b.special_instructions }

/-- `PUT /order-items/:id` (lines 1972-1988): the generic item update.
It performs no authentication, no status-transition guard and no
order-status sync; the only constraint on a status write is the table's
CHECK constraint, whose violation aborts before any change. -/
def itemUpdate (db : DB) (iid : Nat) (body : ItemUpdateBody) : DB × Option String :=
  match findItem db iid with
  | none => (db, some "Order item not found")
  | some _ =>
    if body.isEmptyBody then (db, some "No updatable fields")
    else if (match body.status with
             | some s => !(itemStatusCheck.contains s)
             | none => false) then
      (db, some "CHECK constraint failed: status")
    else
      (mapItems db fun it => if it.id == iid then applyItemBody body it else it, none)

def dockingAllowedRoles : List String :=
  ["planner", "production_manager", "floor_worker", "executive", "office",
   "admin", "ops_manager"]

/-- `PUT /orders/:id/docking-complete` (lines 1762-1782): batch docking,
promoting every C item of the order to R and stamping
`docking_completed_at`, then syncing the order status. -/
def dockingCompleteOrder (db : DB) (authed : Bool) (role : String) (oid : Nat) :
    DB × Option String :=
  if !authed then (db, some "Authentication required")
  else if !(dockingAllowedRoles.contains role) then (db, some "Permission denied")
  else
    match findOrder db oid with
    | none => (db, some "Order not found")
    | some _ =>
      let db1 := mapItems db fun it =>
        if it.order_id == oid && it.status == "C" then
          { it with status := "R", docking_completed_at := true } else it
      (db_sync_order_status db1 oid, none)

/-- `PUT /order-items/:id/docking-complete` (lines 1784-1803):
single-item docking completion. -/
def dockingCompleteItem (db : DB) (authed : Bool) (iid : Nat) : DB × Option String :=
  if !authed then (db, some "Authentication required")
  else
    match findItem db iid with
    | none => (db, some "Order item not found")
    | some item_row =>
      if item_row.status != "C" then
        (db, some "Item must be in Cut List/Docking status (C) to complete docking")
      else
        let db1 := mapItems db fun it =>
          if it.id == iid then { it with status := "R", docking_completed_at := true }
          else it
        (db_sync_order_status db1 item_row.order_id, none)

structure SessionBody where
  order_item_id : Option Nat := none
  station_id : Option Nat := none
  zone_id : Option Nat := none
  target_quantity : Option Int := none
  deriving Repr, DecidableEq

/-- `POST /production/sessions` (lines 2212-2233): open a production
session; when attached to an item in status R, promote it to P and sync
the order. -/
def openSession (db : DB) (authed : Bool) (body : SessionBody) : DB × Option String :=
  if !authed then (db, some "Authentication required")
  else if body.station_id.isNone then (db, some "Field station_id is required")
  else if body.zone_id.isNone then (db, some "Field zone_id is required")
  else
    let s : SessionRow :=
      { id := db.next_session_id, order_item_id := body.order_item_id,
        status := "active", produced_quantity := 0,
        target_quantity := body.target_quantity }
    let db1 := { db with
      production_sessions := db.production_sessions ++ [s]
      next_session_id := db.next_session_id + 1 }
    match body.order_item_id with
    | none => (db1, none)
    | some iid =>
      match findItem db1 iid with
      | none => (db1, none)
      | some item_row =>
        if item_row.status == "R" then
          let db2 := mapItems db1 fun it =>
            if it.id == iid then { it with status := "P" } else it
          (db_sync_order_status db2 item_row.order_id, none)
        else (db1, none)

/-- `PUT /production/sessions/:id/log` (lines 2235-2252): log a
quantity delta against an active session, clamping the running total at
zero and appending one immutable log row. -/
def logProduction (db : DB) (authed : Bool) (sid : Nat) (qty_change : Option Int) :
    DB × Option String :=
  if !authed then (db, some "Authentication required")
  else
    match qty_change with
    | none => (db, some "quantity_change required")
    | some d =>
      match findSession db sid with
      | none => (db, some "Session not found")
      | some s =>
        if s.status != "active" then (db, some "Session is not active")
        else
          let new_total := max 0 (s.produced_quantity + d)
          let db1 := { db with
            production_logs := db.production_logs ++
              [({ session_id := sid, quantity_change := d,
                  running_total := new_total } : LogRow)] }
          ({ db1 with production_sessions := db1.production_sessions.map fun ps =>
              if ps.id == sid then { ps with produced_quantity := new_total } else ps },
           none)

/-- `PUT /production/sessions/:id/complete` (lines 2288-2325): close a
session, add the final-quantity delta onto the item, and when the
target is met or a force flag is set (and the item is not already F or
dispatched) create exactly one pending QA inspection.  The item status
is never written here. -/
def completeSession (db : DB) (authed : Bool) (sid : Nat) (final_qty_body : Option Int)
    (force_complete : Bool) : DB × Option String :=
  if !authed then (db, some "Authentication required")
  else
    match findSession db sid with
    | none => (db, some "Session not found")
    | some s =>
      let final_qty := final_qty_body.getD s.produced_quantity
      let db1 := { db with production_sessions := db.production_sessions.map fun ps =>
        if ps.id == sid then { ps with status := "completed", produced_quantity := final_qty }
        else ps }
      match s.order_item_id with
      | none => (db1, none)
      | some iid =>
        let qty_delta := final_qty - s.produced_quantity
        let db2 := mapItems db1 fun it =>
          if it.id == iid then
            { it with produced_quantity := it.produced_quantity + qty_delta } else it
        match findItem db2 iid with
        | none => (db2, none)
        | some item_row =>
          if (item_row.quantity ≤ item_row.produced_quantity ∨ force_complete = true) ∧
             item_row.status ≠ "F" ∧ item_row.status ≠ "dispatched" then
            let note :=
              if item_row.quantity ≤ item_row.produced_quantity then
                "Auto-created: production target met"
              else
                "Force-completed at " ++ toString item_row.produced_quantity ++ "/" ++
                  toString item_row.quantity ++ " units"
            let insp : InspectionRow :=
              { id := db2.next_inspection_id, order_item_id := some iid,
                session_id := some sid, inspection_type := "final",
                batch_size := some item_row.produced_quantity, passed := some 0,
                inspector_id := none, notes := some note }
            ({ db2 with
               qa_inspections := db2.qa_inspections ++ [insp]
               next_inspection_id := db2.next_inspection_id + 1 }, none)
          else (db2, none)

/-- `PUT /qa/inspections/:id/approve` (lines 2426-2445): mark the
inspection passed and promote the inspected item to F (unless already F
or dispatched), then sync the order. -/
def qaApprove (db : DB) (authed : Bool) (insp_id : Nat) : DB × Option String :=
  if !authed then (db, some "Authentication required")
  else
    match findInspection db insp_id with
    | none => (db, some "Inspection not found")
    | some insp =>
      let db1 := { db with qa_inspections := db.qa_inspections.map fun q =>
        if q.id == insp_id then { q with passed := some 1 } else q }
      match insp.order_item_id with
      | none => (db1, none)
      | some item_id =>
        match findItem db1 item_id with
        | none => (db1, none)
        | some item =>
          if item.status ≠ "F" ∧ item.status ≠ "dispatched" then
            let db2 := mapItems db1 fun it =>
              if it.id == item_id then { it with status := "F" } else it
            (db_sync_order_status db2 item.order_id, none)
          else (db1, none)

/-- `POST /order-items/:id/split` (lines 3375-3403).  The original row's
UPDATE is `SET quantity=?, line_total=quantity*unit_price`: SQLite
evaluates the SET expressions against the row's pre-update values, so
the record-update below reads `it.quantity` (the quantity before the
split) when recomputing `line_total`.  The new row is inserted with the
copied attributes, `line_total = new_qty * unit_price`, the table's
default status 'T', and `split_from_item_id` pointing at the original.
No order-status sync is performed. -/
def splitItem (db : DB) (iid : Nat) (new_quantity : Option Int) : DB × Option String :=
  match new_quantity with
  | none => (db, some "new_quantity required and must be > 0")
  | some k =>
    if k ≤ 0 then (db, some "new_quantity required and must be > 0")
    else
      match findItem db iid with
      | none => (db, some "Order item not found")
      | some orig =>
        if orig.quantity ≤ k then
          (db, some "new_quantity must be less than original quantity")
        else
          let remaining := orig.quantity - k
          let db1 := mapItems db fun it =>
            if it.id == iid then
              { it with quantity := remaining,
                        line_total := (it.quantity : Rat) * it.unit_price }
            else it
          let newItem : ItemRow :=
            { id := db1.next_item_id, order_id := orig.order_id,
              sku_id := orig.sku_id, sku_code := orig.sku_code,
              product_name := orig.product_name, quantity := k,
              produced_quantity := 0, unit_price := orig.unit_price,
              line_total := (k : Rat) * orig.unit_price, status := "T",
              zone_id := orig.zone_id, station_id := orig.station_id,
              scheduled_date := orig.scheduled_date, eta_date := orig.eta_date,
              drawing_number := orig.drawing_number,
              special_instructions := orig.special_instructions,
              split_from_item_id := some iid, docking_completed_at := false }
          ({ db1 with
             order_items := db1.order_items ++ [newItem]
             next_item_id := db1.next_item_id + 1 }, none)

def upsertInventory (inv : List InventoryRow) (sk : Nat) (qty : Int) :
    List InventoryRow :=
  if inv.any fun r => r.sku_id == sk then
    inv.map fun r =>
      if r.sku_id == sk then { r with units_on_hand := r.units_on_hand + qty } else r
  else inv ++ [{ sku_id := sk, units_on_hand := qty }]

/-- `POST /orders/:id/stock-complete` (lines 3406-3427): for a stock-run
order, upsert inventory for each item with a SKU and force every item
that is not already F or dispatched to F, then sync the order. -/
def stockComplete (db : DB) (oid : Nat) (produced_quantity : Option Int) :
    DB × Option String :=
  match db.orders.find? (fun o => o.id == oid && o.is_stock_run) with
  | none => (db, some "Stock run order not found")
  | some _ =>
    let inv := (itemsOf db oid).foldl (fun acc it =>
      match it.sku_id with
      | none => acc
      | some sk => upsertInventory acc sk (produced_quantity.getD it.quantity))
      db.inventory
    let db1 := { db with inventory := inv }
    let db2 := mapItems db1 fun it =>
      if it.order_id == oid && !(it.status == "F") && !(it.status == "dispatched")
      then { it with status := "F" } else it
    (db_sync_order_status db2 oid, none)

structure CapacityResult where
  max_capacity : Int
  current_total : Int
  additional_quantity : Int
  new_total : Int
  would_exceed : Bool
  remaining_capacity : Int
  deriving Repr, DecidableEq

/-- `GET /capacity-check` (lines 3430-3457): a read-only query.  The
scheduled-quantity sum is `SELECT COALESCE(SUM(planned_quantity),0)
FROM schedule_entries WHERE station_id=? AND scheduled_date=?` — with
no filter on the entry status. -/
def capacity_check (db : DB) (station_id : Nat) (scheduled_date : String)
    (additional_qty : Int) : CapacityResult :=
  let max_capacity : Int :=
    ((db.station_capacity.find? fun c => c.station_id == station_id).map
      fun c => c.max_units_per_day).getD 9999
  let current_total : Int :=
    ((db.schedule_entries.filter fun e =>
        e.station_id == some station_id && e.scheduled_date == scheduled_date).map
      fun e => e.planned_quantity.getD 0).sum
  let new_total : Int := current_total + additional_qty
  { max_capacity := max_capacity, current_total := current_total,
    additional_quantity := additional_qty, new_total := new_total,
    would_exceed := decide (max_capacity < new_total),
    remaining_capacity := max 0 (max_capacity - current_total) }

/-- The sum the specification asks for: planned quantities of the
station's entries on the date across all NON-CANCELLED schedule
entries (spec 4.3).  Compared against the implementation's sum. -/
def plannedNonCancelled (db : DB) (station_id : Nat) (scheduled_date : String) : Int :=
  ((db.schedule_entries.filter fun e =>
      e.station_id == some station_id && e.scheduled_date == scheduled_date &&
      e.status != "cancelled").map
    fun e => e.planned_quantity.getD 0).sum

/-- The capacity check as the amended claim words it: configured daily
maximum (9999 when unconfigured), the planned sum over ALL of the
station's entries for the date regardless of entry status, the new
total, the exceed flag, and the clamped remaining headroom before the
check. -/
def capacitySpec (db : DB) (station_id : Nat) (scheduled_date : String)
    (additional_qty : Int) : CapacityResult :=
  let maxCap : Int :=
    ((db.station_capacity.find? fun c => c.station_id == station_id).map
      fun c => c.max_units_per_day).getD 9999
  let planned : Int :=
    ((db.schedule_entries.filter fun e =>
        e.station_id == some station_id && e.scheduled_date == scheduled_date).map
      fun e => e.planned_quantity.getD 0).sum
  let newTotal : Int := planned + additional_qty
  { max_capacity := maxCap, current_total := planned,
    additional_quantity := additional_qty, new_total := newTotal,
    would_exceed := decide (maxCap < newTotal),
    remaining_capacity := max 0 (maxCap - planned) }

/-! ## The operation universe

The lifecycle mutations the specification's invariants quantify over:
the general order status update, the generic item update, batch and
single-item docking completion, production session open / log /
complete, QA approval, item split and stock-run completion. -/

inductive Op where
  | opUpdateOrderStatus (authed : Bool) (oid : Nat) (new_status : String)
  | opItemUpdate (iid : Nat) (body : ItemUpdateBody)
  | opDockingCompleteOrder (authed : Bool) (role : String) (oid : Nat)
  | opDockingCompleteItem (authed : Bool) (iid : Nat)
  | opOpenSession (authed : Bool) (body : SessionBody)
  | opLogQuantity (authed : Bool) (sid : Nat) (d : Option Int)
  | opCompleteSession (authed : Bool) (sid : Nat) (finalQty : Option Int) (force : Bool)
  | opQaApprove (authed : Bool) (insp_id : Nat)
  | opSplitItem (iid : Nat) (k : Option Int)
  | opStockComplete (oid : Nat) (qty : Option Int)
  deriving Repr

def applyOp : Op → DB → DB × Option String
  | Op.opUpdateOrderStatus authed oid s, db => updateOrderStatus db authed oid s
  | Op.opItemUpdate iid body, db => itemUpdate db iid body
  | Op.opDockingCompleteOrder authed role oid, db => dockingCompleteOrder db authed role oid
  | Op.opDockingCompleteItem authed iid, db => dockingCompleteItem db authed iid
  | Op.opOpenSession authed body, db => openSession db authed body
  | Op.opLogQuantity authed sid d, db => logProduction db authed sid d
  | Op.opCompleteSession authed sid fq force, db => completeSession db authed sid fq force
  | Op.opQaApprove authed iid, db => qaApprove db authed iid
  | Op.opSplitItem iid k, db => splitItem db iid k
  | Op.opStockComplete oid q, db => stockComplete db oid q

/-! ## Generic lemmas about the row stores -/

lemma findItem_mapItems (db : DB) (f : ItemRow → ItemRow)
    (hf : ∀ it, (f it).id = it.id) (i : Nat) :
    findItem (mapItems db f) i = (findItem db i).map f := by
  unfold findItem mapItems
  show (db.order_items.map f).find? (fun it => it.id == i) = _
  rw [List.find?_map]
  have hp : ((fun it : ItemRow => it.id == i) ∘ f) = fun it : ItemRow => it.id == i := by
    funext it
    simp [Function.comp, hf it]
  rw [hp]

lemma statusOfItem_mapItems (db : DB) (f : ItemRow → ItemRow)
    (hf : ∀ it, (f it).id = it.id) (i : Nat) :
    statusOfItem (mapItems db f) i = (findItem db i).map fun it => (f it).status := by
  unfold statusOfItem
  rw [findItem_mapItems db f hf i]
  cases findItem db i <;> rfl

lemma findItem_sync (db : DB) (oid i : Nat) :
    findItem (db_sync_order_status db oid) i = findItem db i := rfl

lemma statusOfItem_sync (db : DB) (oid i : Nat) :
    statusOfItem (db_sync_order_status db oid) i = statusOfItem db i := rfl

/-! ## Concrete databases used by the scenario theorems -/

def emptyDB : DB :=
  { orders := [], order_items := [], production_sessions := [],
    production_logs := [], qa_inspections := [], schedule_entries := [],
    station_capacity := [], inventory := [],
    next_item_id := 1, next_session_id := 1, next_inspection_id := 1 }

/-- Station 1 capped at 500 units/day with 450 already planned (live). -/
def capDB : DB :=
  { emptyDB with
    station_capacity := [{ station_id := 1, max_units_per_day := 500 }]
    schedule_entries := [{ station_id := some 1, scheduled_date := "2026-01-01",
                           planned_quantity := some 450, status := "planned" }] }

/-- Station 1 capped at 500 units/day whose only schedule entry for the
day is CANCELLED with planned quantity 450. -/
def capCancelDB : DB :=
  { emptyDB with
    station_capacity := [{ station_id := 1, max_units_per_day := 500 }]
    schedule_entries := [{ station_id := some 1, scheduled_date := "2026-01-01",
                           planned_quantity := some 450, status := "cancelled" }] }

/-- C8 counterexample: the capacity check does NOT restrict the planned
sum to non-cancelled entries — with a single cancelled entry of 450
planned units it reports `current_total = 450`, while the sum over
non-cancelled entries demanded by the claim is 0. -/
theorem capacity_check_cancelled_cex :
    (capacity_check capCancelDB 1 "2026-01-01" 100).current_total = 450 ∧
    plannedNonCancelled capCancelDB 1 "2026-01-01" = 0 ∧
    (450 : Int) ≠ 0 := by
  refine ⟨by decide, by decide, by decide⟩

/-- C8 amended: the capacity check is a pure query returning the
configured daily maximum (9999 when no capacity row is configured), the
planned sum over ALL schedule entries for the station and date
(cancelled entries included), `new_total` = that sum plus the requested
quantity, `would_exceed` exactly when the new total exceeds the
maximum, and the clamped remaining headroom before the check; with
maximum 500, 450 already planned live, and 100 requested it reports
`would_exceed = true` and `remaining_capacity = 50`. -/
theorem capacity_check_amended :
    (∀ (db : DB) (sid : Nat) (date : String) (q : Int),
      capacity_check db sid date q = capacitySpec db sid date q) ∧
    (capacity_check capDB 1 "2026-01-01" 100).would_exceed = true ∧
    (capacity_check capDB 1 "2026-01-01" 100).remaining_capacity = 50 := by
  refine ⟨fun db sid date q => rfl, by decide, by decide⟩

lemma find?_map_of_pred_comm {α : Type} (l : List α) (f : α → α) (p : α → Bool)
    (hf : ∀ a, p (f a) = p a) :
    (l.map f).find? p = (l.find? p).map f := by
  rw [List.find?_map]
  have hp : (p ∘ f) = p := by
    funext a
    simp [Function.comp, hf a]
  rw [hp]

/-- Session 1 active with produced_quantity 10. -/
def logDB : DB :=
  { emptyDB with production_sessions :=
      [{ id := 1, order_item_id := none, status := "active",
         produced_quantity := 10, target_quantity := some 100 }] }

def logDB1 : DB := (logProduction logDB true 1 (some (-5))).1

def logDB2 : DB := (logProduction logDB1 true 1 (some 20)).1

/-- C7: logging a delta `d` against an active session with running
total `n` sets the total to `max 0 (n + d)`, appends exactly one log
row recording `d` and that clamped total, and preserves the invariant
that no recorded running total is negative; logging against a session
that is not active is rejected without mutation; and the scenario
10 → (−5) → 5 → (+20) → 25 evaluates as the claim states. -/
theorem log_production_ok :
    (∀ (db : DB) (sid : Nat) (s : SessionRow) (d : Int),
      findSession db sid = some s →
      s.status = "active" →
      0 ≤ s.produced_quantity →
      (logProduction db true sid (some d)).2 = none ∧
      (logProduction db true sid (some d)).1.production_logs =
        db.production_logs ++
          [{ session_id := sid, quantity_change := d,
             running_total := max 0 (s.produced_quantity + d) }] ∧
      ((∀ l ∈ db.production_logs, 0 ≤ l.running_total) →
        ∀ l ∈ (logProduction db true sid (some d)).1.production_logs,
          0 ≤ l.running_total) ∧
      ((findSession (logProduction db true sid (some d)).1 sid).map
        fun ps => ps.produced_quantity) = some (max 0 (s.produced_quantity + d))) ∧
    (∀ (db : DB) (sid : Nat) (s : SessionRow) (d : Int),
      findSession db sid = some s →
      s.status ≠ "active" →
      logProduction db true sid (some d) = (db, some "Session is not active")) ∧
    logDB1.production_logs =
      [{ session_id := 1, quantity_change := -5, running_total := 5 }] ∧
    logDB2.production_logs =
      [{ session_id := 1, quantity_change := -5, running_total := 5 },
       { session_id := 1, quantity_change := 20, running_total := 25 }] ∧
    ((findSession logDB2 1).map fun ps => ps.produced_quantity) = some 25 := by
  refine ⟨?_, ?_, by decide, by decide, by decide⟩
  · intro db sid s d hfind hactive hnn
    have hfind' : db.production_sessions.find? (fun x => x.id == sid) = some s := hfind
    have hid : (s.id == sid) = true := by
      have h := List.find?_some hfind'
      exact h
    simp only [logProduction, Bool.not_true, Bool.false_eq_true, if_false, hfind]
    rw [hactive]
    simp only [bne_self_eq_false, Bool.false_eq_true, if_false]
    refine ⟨trivial, trivial, ?_, ?_⟩
    · intro hinv l hl
      simp only [List.mem_append, List.mem_singleton] at hl
      rcases hl with hl | hl
      · exact hinv l hl
      · rw [hl]
        exact le_max_left 0 _
    · show ((db.production_sessions.map fun ps =>
          if ps.id == sid then
            { ps with produced_quantity := max 0 (s.produced_quantity + d) }
          else ps).find? fun ps => ps.id == sid).map (fun ps => ps.produced_quantity)
        = some (max 0 (s.produced_quantity + d))
      rw [find?_map_of_pred_comm]
      · rw [show db.production_sessions.find? (fun ps => ps.id == sid) = some s from hfind]
        have hideq : s.id = sid := by simpa using hid
        simp [hideq]
      · intro a
        by_cases h : (a.id == sid) = true <;> simp [h]
  · intro db sid s d hfind hne
    have hbne : (s.status != "active") = true := by
      simp [bne_iff_ne, hne]
    simp [logProduction, hfind, hbne]

/-- Session 2 paused with produced_quantity 3. -/
def pausedDB : DB :=
  { emptyDB with production_sessions :=
      [{ id := 2, order_item_id := none, status := "paused",
         produced_quantity := 3, target_quantity := none }] }

/-- C7 witness: the logging theorem applied at concrete inputs. -/
theorem log_production_ok_witness :
    (logProduction logDB true 1 (some (-5))).2 = none ∧
    logProduction pausedDB true 2 (some 4) = (pausedDB, some "Session is not active") := by
  constructor
  · exact (log_production_ok.1 logDB 1
      { id := 1, order_item_id := none, status := "active",
        produced_quantity := 10, target_quantity := some 100 }
      (-5) rfl rfl (by decide)).1
  · exact log_production_ok.2.1 pausedDB 2
      { id := 2, order_item_id := none, status := "paused",
        produced_quantity := 3, target_quantity := none }
      4 rfl (by decide)

/-- C3: completing a session attached to an item that is not already
'F' or 'dispatched', when the item's cumulative produced quantity after
the completion reaches its ordered quantity or a force flag is set,
succeeds, creates exactly one new pending QA inspection (passed = 0)
for that item and session, and leaves the item's status untouched (in
particular it is not set to 'F'). -/
theorem complete_session_creates_pending_qa :
    ∀ (db : DB) (sid : Nat) (s : SessionRow) (iid : Nat) (it : ItemRow)
      (fq : Option Int) (force : Bool),
      findSession db sid = some s →
      s.order_item_id = some iid →
      findItem db iid = some it →
      it.status ≠ "F" →
      it.status ≠ "dispatched" →
      (it.quantity ≤ it.produced_quantity + (fq.getD s.produced_quantity - s.produced_quantity)
        ∨ force = true) →
      (completeSession db true sid fq force).2 = none ∧
      (completeSession db true sid fq force).1.qa_inspections =
        db.qa_inspections ++
          [{ id := db.next_inspection_id, order_item_id := some iid,
             session_id := some sid, inspection_type := "final",
             batch_size := some (it.produced_quantity +
               (fq.getD s.produced_quantity - s.produced_quantity)),
             passed := some 0, inspector_id := none,
             notes := some (if it.quantity ≤ it.produced_quantity +
                 (fq.getD s.produced_quantity - s.produced_quantity) then
                 "Auto-created: production target met"
               else
                 "Force-completed at " ++
                   toString (it.produced_quantity +
                     (fq.getD s.produced_quantity - s.produced_quantity)) ++
                   "/" ++ toString it.quantity ++ " units") }] ∧
      statusOfItem (completeSession db true sid fq force).1 iid = some it.status := by
  intro db sid s iid it fq force hs hoi hit hF hD htarget
  have hit' : db.order_items.find? (fun x => x.id == iid) = some it := hit
  have hitid : (it.id == iid) = true := by
    have h := List.find?_some hit'
    exact h
  have hpres : ∀ a : ItemRow,
      ((if a.id == iid then
          { a with produced_quantity := a.produced_quantity +
              (fq.getD s.produced_quantity - s.produced_quantity) }
        else a).id == iid) = (a.id == iid) := by
    intro a
    by_cases h : (a.id == iid) = true <;> simp [h]
  have hstep : (db.order_items.map fun a =>
      if a.id == iid then
        { a with produced_quantity := a.produced_quantity +
            (fq.getD s.produced_quantity - s.produced_quantity) }
      else a).find? (fun x => x.id == iid) =
      some { it with produced_quantity := it.produced_quantity +
        (fq.getD s.produced_quantity - s.produced_quantity) } := by
    rw [find?_map_of_pred_comm _ _ _ hpres, hit']
    have hideq : it.id = iid := by simpa using hitid
    simp [hideq]
  simp only [completeSession, Bool.not_true, Bool.false_eq_true, if_false, hs, hoi,
    findItem, mapItems, statusOfItem]
  rw [hstep]
  simp only [Option.map_some]
  rw [if_pos ⟨htarget, hF, hD⟩]
  refine ⟨rfl, rfl, ?_⟩
  rw [hstep]
  rfl

def qaItem : ItemRow :=
  { id := 1, order_id := 1, sku_id := none, sku_code := none, product_name := none,
    quantity := 5, produced_quantity := 0, unit_price := 0, line_total := 0,
    status := "P", zone_id := none, station_id := none, scheduled_date := none,
    eta_date := none, drawing_number := none, special_instructions := none,
    split_from_item_id := none, docking_completed_at := true }

/-- Order 1 in production: one item of quantity 5 (none produced yet)
with an active session attached. -/
def qaDB : DB :=
  { emptyDB with
    orders := [{ id := 1, status := "P", progress := "0/1 items complete",
                 is_stock_run := false }]
    order_items := [qaItem]
    production_sessions := [{ id := 1, order_item_id := some 1, status := "active",
                              produced_quantity := 0, target_quantity := some 5 }]
    next_item_id := 2
    next_session_id := 2 }

/-- C3 witness: completing the session with final quantity 5 (meeting
the target of 5) succeeds and leaves the item in status 'P'. -/
theorem complete_session_creates_pending_qa_witness :
    (completeSession qaDB true 1 (some 5) false).2 = none ∧
    statusOfItem (completeSession qaDB true 1 (some 5) false).1 1 = some "P" := by
  have h := complete_session_creates_pending_qa qaDB 1
    { id := 1, order_item_id := some 1, status := "active",
      produced_quantity := 0, target_quantity := some 5 }
    1 qaItem (some 5) false rfl rfl rfl (by decide) (by decide) (by decide)
  exact ⟨h.1, h.2.2⟩

lemma dockingDoneOf_mapItems (db : DB) (f : ItemRow → ItemRow)
    (hf : ∀ it, (f it).id = it.id) (i : Nat) :
    dockingDoneOf (mapItems db f) i =
      (findItem db i).map fun it => (f it).docking_completed_at := by
  unfold dockingDoneOf
  rw [findItem_mapItems db f hf i]
  cases findItem db i <;> rfl

lemma dockingDoneOf_sync (db : DB) (oid i : Nat) :
    dockingDoneOf (db_sync_order_status db oid) i = dockingDoneOf db i := rfl

/-- An order sitting at status 'C' with a single cut-list item (id 7,
status 'C', not yet docked). -/
def cutListDB : DB :=
  { emptyDB with
    orders := [{ id := 3, status := "C", progress := "0/1 items complete",
                 is_stock_run := false }]
    order_items := [{ id := 7, order_id := 3, sku_id := none, sku_code := none,
                      product_name := none, quantity := 10, produced_quantity := 0,
                      unit_price := 0, line_total := 0, status := "C",
                      zone_id := none, station_id := none, scheduled_date := none,
                      eta_date := none, drawing_number := none,
                      special_instructions := none, split_from_item_id := none,
                      docking_completed_at := false }]
    next_item_id := 8 }

/-- C2 counterexample: the generic item update (`PUT /order-items/:id`)
does NOT reject a direct C-to-R change — on an item in status 'C' it
succeeds, sets the status to 'R', and leaves `docking_completed_at`
unset, bypassing the docking gate entirely. -/
theorem item_c_to_r_guard_cex :
    statusOfItem cutListDB 7 = some "C" ∧
    (itemUpdate cutListDB 7 { status := some "R" }).2 = none ∧
    statusOfItem (itemUpdate cutListDB 7 { status := some "R" }).1 7 = some "R" ∧
    dockingDoneOf (itemUpdate cutListDB 7 { status := some "R" }).1 7 = some false := by
  decide

/-- C2 amended: the ORDER-level general status-update endpoint rejects
C-to-R with an error and no change; the dedicated docking-complete
operations (single-item and order-level batch) are the operations that
perform C-to-R, setting `docking_completed_at`; but the generic
item-update endpoint performs no such guard (see the counterexample). -/
theorem c_to_r_docking_gate :
    (∀ (db : DB) (oid : Nat) (o : OrderRow),
      findOrder db oid = some o →
      o.status = "C" →
      updateOrderStatus db true oid "R" =
        (db, some "Cannot promote C to R directly. Use Docking Complete action instead - docking is a mandatory gate.")) ∧
    (∀ (db : DB) (iid : Nat) (it : ItemRow),
      findItem db iid = some it →
      it.status = "C" →
      (dockingCompleteItem db true iid).2 = none ∧
      statusOfItem (dockingCompleteItem db true iid).1 iid = some "R" ∧
      dockingDoneOf (dockingCompleteItem db true iid).1 iid = some true) ∧
    (∀ (db : DB) (role : String) (oid : Nat) (o : OrderRow) (iid : Nat) (it : ItemRow),
      dockingAllowedRoles.contains role = true →
      findOrder db oid = some o →
      findItem db iid = some it →
      it.order_id = oid →
      it.status = "C" →
      (dockingCompleteOrder db true role oid).2 = none ∧
      statusOfItem (dockingCompleteOrder db true role oid).1 iid = some "R" ∧
      dockingDoneOf (dockingCompleteOrder db true role oid).1 iid = some true) := by
  refine ⟨?_, ?_, ?_⟩
  · intro db oid o hfind hst
    have hguard : (o.status == "C" && ("R" : String) == "R") = true := by
      simp [hst]
    simp only [updateOrderStatus, Bool.not_true, Bool.false_eq_true, if_false, hfind]
    rw [if_neg (by decide), if_pos hguard]
  · intro db iid it hfind hst
    have hideq : it.id = iid := by
      have h := List.find?_some
        (show db.order_items.find? (fun x => x.id == iid) = some it from hfind)
      simpa using h
    have hbne : (it.status != "C") = false := by
      simp [hst]
    simp only [dockingCompleteItem, Bool.not_true, Bool.false_eq_true, if_false,
      hfind, hbne]
    refine ⟨trivial, ?_, ?_⟩
    · rw [statusOfItem_sync, statusOfItem_mapItems, hfind]
      · simp [hideq]
      · intro a
        by_cases h : (a.id == iid) = true <;> simp [h]
    · rw [dockingDoneOf_sync, dockingDoneOf_mapItems, hfind]
      · simp [hideq]
      · intro a
        by_cases h : (a.id == iid) = true <;> simp [h]
  · intro db role oid o iid it hrole hord hfind hown hst
    have hnrole : (!dockingAllowedRoles.contains role) = false := by
      rw [hrole]
      rfl
    simp only [dockingCompleteOrder, Bool.not_true, Bool.false_eq_true, if_false,
      hnrole, hord]
    refine ⟨trivial, ?_, ?_⟩
    · rw [statusOfItem_sync, statusOfItem_mapItems, hfind]
      · simp [hown, hst]
      · intro a
        by_cases h : (a.order_id == oid && a.status == "C") = true <;> simp [h]
    · rw [dockingDoneOf_sync, dockingDoneOf_mapItems, hfind]
      · simp [hown, hst]
      · intro a
        by_cases h : (a.order_id == oid && a.status == "C") = true <;> simp [h]

/-- C2 amended witness: the gate theorem applied to the concrete
cut-list database. -/
theorem c_to_r_docking_gate_witness :
    updateOrderStatus cutListDB true 3 "R" =
      (cutListDB, some "Cannot promote C to R directly. Use Docking Complete action instead - docking is a mandatory gate.") ∧
    statusOfItem (dockingCompleteItem cutListDB true 7).1 7 = some "R" ∧
    statusOfItem (dockingCompleteOrder cutListDB true "planner" 3).1 7 = some "R" := by
  refine ⟨?_, ?_, ?_⟩
  · exact c_to_r_docking_gate.1 cutListDB 3
      { id := 3, status := "C", progress := "0/1 items complete", is_stock_run := false }
      rfl rfl
  · exact (c_to_r_docking_gate.2.1 cutListDB 7
      { id := 7, order_id := 3, sku_id := none, sku_code := none,
        product_name := none, quantity := 10, produced_quantity := 0,
        unit_price := 0, line_total := 0, status := "C", zone_id := none,
        station_id := none, scheduled_date := none, eta_date := none,
        drawing_number := none, special_instructions := none,
        split_from_item_id := none, docking_completed_at := false }
      rfl rfl).2.1
  · exact (c_to_r_docking_gate.2.2 cutListDB "planner" 3
      { id := 3, status := "C", progress := "0/1 items complete", is_stock_run := false }
      7
      { id := 7, order_id := 3, sku_id := none, sku_code := none,
        product_name := none, quantity := 10, produced_quantity := 0,
        unit_price := 0, line_total := 0, status := "C", zone_id := none,
        station_id := none, scheduled_date := none, eta_date := none,
        drawing_number := none, special_instructions := none,
        split_from_item_id := none, docking_completed_at := false }
      (by decide) rfl rfl rfl rfl).2.1

/-- An order fully finished: status 'F', progress "1/1 items complete",
one item of quantity 100 at unit price 2 (line_total 200), status 'F'. -/
def splitDB : DB :=
  { emptyDB with
    orders := [{ id := 1, status := "F", progress := "1/1 items complete",
                 is_stock_run := false }]
    order_items := [{ id := 1, order_id := 1, sku_id := some 11,
                      sku_code := some "PAL-100", product_name := some "Pallet",
                      quantity := 100, produced_quantity := 100, unit_price := 2,
                      line_total := 200, status := "F", zone_id := some 4,
                      station_id := some 9, scheduled_date := some "2026-02-01",
                      eta_date := some "2026-02-10", drawing_number := none,
                      special_instructions := none, split_from_item_id := none,
                      docking_completed_at := true }]
    next_item_id := 2 }

/-- C6 at the failing input (Q = 100, unit price 2, K = 30): the split
succeeds with quantities 70 and 30 and all attributes copied, the new
row's line_total is 30 x 2 = 60, BUT the original row's line_total
stays 200 = 100 x 2 (SQLite evaluates `line_total=quantity*unit_price`
against the pre-update quantity), violating
`line_total = quantity * unit_price` (70 x 2 = 140).  The out-of-range
requests K = 0 and K = 100 are rejected without any change. -/
theorem split_line_total_bug :
    (splitItem splitDB 1 (some 30)).2 = none ∧
    quantityOfItem (splitItem splitDB 1 (some 30)).1 1 = some 70 ∧
    lineTotalOfItem (splitItem splitDB 1 (some 30)).1 1 = some 200 ∧
    (200 : Rat) ≠ 70 * 2 ∧
    quantityOfItem (splitItem splitDB 1 (some 30)).1 2 = some 30 ∧
    lineTotalOfItem (splitItem splitDB 1 (some 30)).1 2 = some 60 ∧
    ((findItem (splitItem splitDB 1 (some 30)).1 2).map fun it => it.unit_price) =
      some 2 ∧
    ((findItem (splitItem splitDB 1 (some 30)).1 2).map fun it => it.sku_code) =
      some (some "PAL-100") ∧
    ((findItem (splitItem splitDB 1 (some 30)).1 2).map fun it => it.zone_id) =
      some (some 4) ∧
    ((findItem (splitItem splitDB 1 (some 30)).1 2).map fun it => it.station_id) =
      some (some 9) ∧
    ((findItem (splitItem splitDB 1 (some 30)).1 2).map fun it => it.scheduled_date) =
      some (some "2026-02-01") ∧
    ((findItem (splitItem splitDB 1 (some 30)).1 2).map fun it => it.eta_date) =
      some (some "2026-02-10") ∧
    ((findItem (splitItem splitDB 1 (some 30)).1 2).map fun it => it.split_from_item_id) =
      some (some 1) ∧
    splitItem splitDB 1 (some 0) =
      (splitDB, some "new_quantity required and must be > 0") ∧
    splitItem splitDB 1 (some 100) =
      (splitDB, some "new_quantity must be less than original quantity") := by
  refine ⟨rfl, rfl, ?_, by norm_num, rfl, ?_, rfl, rfl, rfl, rfl, rfl, rfl, rfl,
    rfl, rfl⟩
  · have h : lineTotalOfItem (splitItem splitDB 1 (some 30)).1 1 =
        some (((100 : Int) : Rat) * 2) := rfl
    rw [h]
    refine congrArg some ?_
    norm_num
  · have h : lineTotalOfItem (splitItem splitDB 1 (some 30)).1 2 =
        some (((30 : Int) : Rat) * 2) := rfl
    rw [h]
    refine congrArg some ?_
    norm_num

/-- C4 at the failing input: splitting the only item (status 'F') of an
order persisted as 'F' performs NO order-status sync — the new split
row enters with the table default status 'T', so the aggregator's value
becomes 'T' and the recomputed progress "1/2 items complete", while
the order still carries status 'F' and progress "1/1 items complete". -/
theorem split_skips_order_sync :
    (splitItem splitDB 1 (some 30)).2 = none ∧
    orderStatusOf (splitItem splitDB 1 (some 30)).1 1 = some "F" ∧
    db_compute_order_status (splitItem splitDB 1 (some 30)).1 1 = "T" ∧
    ("F" : String) ≠ "T" ∧
    progressOf (splitItem splitDB 1 (some 30)).1 1 = some "1/1 items complete" ∧
    order_progress (itemStatusesOf (splitItem splitDB 1 (some 30)).1 1) =
      "1/2 items complete" := by
  decide

lemma statusOfItem_eq_of_items (dbA dbB : DB) (f : ItemRow → ItemRow)
    (h : dbA.order_items = dbB.order_items.map f)
    (hid : ∀ a, (f a).id = a.id) (hst : ∀ a, (f a).status = a.status) (i : Nat) :
    statusOfItem dbA i = statusOfItem dbB i := by
  unfold statusOfItem findItem
  rw [h, find?_map_of_pred_comm _ _ _ (fun a => by rw [hid a])]
  cases dbB.order_items.find? (fun x => x.id == i) with
  | none => rfl
  | some a => simp [hst a]

lemma f_status_from_map (dbA dbB : DB) (f : ItemRow → ItemRow)
    (h : dbA.order_items = dbB.order_items.map f)
    (hid : ∀ a, (f a).id = a.id)
    (hst : ∀ a, (f a).status = "F" → a.status = "F") (i : Nat)
    (hF : statusOfItem dbA i = some "F") : statusOfItem dbB i = some "F" := by
  unfold statusOfItem findItem at hF ⊢
  rw [h, find?_map_of_pred_comm _ _ _ (fun a => by rw [hid a])] at hF
  cases hfind : dbB.order_items.find? (fun x => x.id == i) with
  | none =>
    rw [hfind] at hF
    exact absurd hF (by simp)
  | some a =>
    rw [hfind] at hF
    simp only [Option.map_some', Option.some.injEq] at hF
    simp [hst a hF]

lemma f_status_from_append (dbA dbB : DB) (f : ItemRow → ItemRow) (extra : ItemRow)
    (h : dbA.order_items = dbB.order_items.map f ++ [extra])
    (hid : ∀ a, (f a).id = a.id)
    (hst : ∀ a, (f a).status = "F" → a.status = "F")
    (hx : extra.status ≠ "F") (i : Nat)
    (hF : statusOfItem dbA i = some "F") : statusOfItem dbB i = some "F" := by
  unfold statusOfItem findItem at hF ⊢
  rw [h, List.find?_append, find?_map_of_pred_comm _ _ _ (fun a => by rw [hid a])] at hF
  cases hfind : dbB.order_items.find? (fun x => x.id == i) with
  | none =>
    rw [hfind] at hF
    simp only [Option.map_none', Option.none_or] at hF
    rw [List.find?_singleton] at hF
    by_cases hp : (extra.id == i) = true
    · rw [if_pos hp] at hF
      simp only [Option.map_some', Option.some.injEq] at hF
      exact absurd hF hx
    · rw [if_neg hp] at hF
      exact absurd hF (by simp)
  | some a =>
    rw [hfind] at hF
    simp only [Option.or_some, Option.map_some', Option.some.injEq] at hF
    simp [hst a hF]

/-- Completing a production session never writes any item's status. -/
lemma completeSession_preserves_status (db : DB) (authed : Bool) (sid : Nat)
    (fq : Option Int) (force : Bool) (i : Nat) :
    statusOfItem (completeSession db authed sid fq force).1 i = statusOfItem db i := by
  unfold completeSession
  dsimp only
  split
  · rfl
  · split
    · rfl
    · split
      · rfl
      · split
        · exact statusOfItem_eq_of_items _ _ _ rfl
            (fun a => by split <;> rfl) (fun a => by split <;> rfl) i
        · split
          · exact statusOfItem_eq_of_items _ _ _ rfl
              (fun a => by split <;> rfl) (fun a => by split <;> rfl) i
          · exact statusOfItem_eq_of_items _ _ _ rfl
              (fun a => by split <;> rfl) (fun a => by split <;> rfl) i

/-- The ways the claim, as stated, lets an item reach 'F': QA approval,
or the operations the claim's sources treat as the administrative
force-complete (the order-level set-to-F and stock-run completion). -/
def specAllowedF : Op → Prop
  | Op.opQaApprove _ _ => True
  | Op.opUpdateOrderStatus _ _ s => s = "F"
  | Op.opStockComplete _ _ => True
  | _ => False

/-- The operations that can actually set an item's status to 'F' in the
code: the spec-allowed set PLUS the generic item update carrying
`status = "F"`. -/
def allowedF : Op → Prop
  | Op.opQaApprove _ _ => True
  | Op.opUpdateOrderStatus _ _ s => s = "F"
  | Op.opStockComplete _ _ => True
  | Op.opItemUpdate _ b => b.status = some "F"
  | _ => False

/-- C9 counterexample: the generic item update moves an item in status
'P' (with no produced quantity at all) straight to 'F' with no QA
inspection and no force-complete — an operation outside the claim's
allowed set. -/
theorem item_f_gate_cex :
    statusOfItem qaDB 1 = some "P" ∧
    (applyOp (Op.opItemUpdate 1 { status := some "F" }) qaDB).2 = none ∧
    statusOfItem (applyOp (Op.opItemUpdate 1 { status := some "F" }) qaDB).1 1 =
      some "F" ∧
    ¬ specAllowedF (Op.opItemUpdate 1 { status := some "F" }) :=
  ⟨rfl, rfl, rfl, fun h => h⟩

/-- C9 amended: over the modelled operation universe, an item's status
can become 'F' only through QA approval, the order-level set-to-F, a
stock-run completion, or the generic item update explicitly carrying
status 'F' (the last being the hole in the claim, which also needs no
authentication); and completing a production session never writes any
item's status — in particular reaching the ordered quantity alone never
sets 'F'. -/
theorem item_f_gate_amended :
    (∀ (op : Op) (db : DB) (i : Nat),
      statusOfItem db i ≠ some "F" →
      statusOfItem (applyOp op db).1 i = some "F" →
      allowedF op) ∧
    (∀ (db : DB) (authed : Bool) (sid : Nat) (fq : Option Int) (force : Bool) (i : Nat),
      statusOfItem (completeSession db authed sid fq force).1 i = statusOfItem db i) := by
  constructor
  · intro op db i hne hF
    cases op with
    | opQaApprove authed insp_id => trivial
    | opStockComplete oid q => trivial
    | opCompleteSession authed sid fq force =>
      exfalso
      simp only [applyOp] at hF
      rw [completeSession_preserves_status] at hF
      exact hne hF
    | opLogQuantity authed sid d =>
      exfalso
      simp only [applyOp, logProduction] at hF
      split at hF
      · exact hne hF
      · split at hF
        · exact hne hF
        · split at hF
          · exact hne hF
          · split at hF
            · exact hne hF
            · exact hne hF
    | opUpdateOrderStatus authed oid s =>
      by_cases hsF : s = "F"
      · exact hsF
      · exfalso
        simp only [applyOp, updateOrderStatus] at hF
        split at hF
        · exact hne hF
        · split at hF
          · exact hne hF
          · split at hF
            · exact hne hF
            · split at hF
              · exact hne hF
              · split at hF
                · split at hF
                  · refine hne (f_status_from_map _ db _ rfl ?_ ?_ i hF)
                    · intro a
                      split <;> rfl
                    · intro a ha
                      split at ha
                      · exact absurd ha (show ("dispatched" : String) ≠ "F" by decide)
                      · exact ha
                  · exact hne hF
                · split at hF
                  · rw [statusOfItem_sync] at hF
                    refine hne (f_status_from_map _ db _ rfl ?_ ?_ i hF)
                    · intro a
                      split <;> rfl
                    · intro a ha
                      split at ha
                      · exact absurd ha (show ("P" : String) ≠ "F" by decide)
                      · exact ha
                  · split at hF
                    · rename_i hs
                      simp only [beq_iff_eq] at hs
                      exact hsF hs
                    · exact hne hF
    | opItemUpdate iid body =>
      by_cases hbF : body.status = some "F"
      · exact hbF
      · exfalso
        simp only [applyOp, itemUpdate] at hF
        split at hF
        · exact hne hF
        · split at hF
          · exact hne hF
          · split at hF
            · exact hne hF
            · refine hne (f_status_from_map _ db _ rfl ?_ ?_ i hF)
              · intro a
                split <;> rfl
              · intro a ha
                split at ha
                · simp only [applyItemBody] at ha
                  cases hb : body.status with
                  | none =>
                    rw [hb] at ha
                    exact ha
                  | some s =>
                    rw [hb] at ha
                    simp only [fieldUpd] at ha
                    exact absurd (hb.trans (by rw [ha])) hbF
                · exact ha
    | opDockingCompleteOrder authed role oid =>
      exfalso
      simp only [applyOp, dockingCompleteOrder] at hF
      split at hF
      · exact hne hF
      · split at hF
        · exact hne hF
        · split at hF
          · exact hne hF
          · rw [statusOfItem_sync] at hF
            refine hne (f_status_from_map _ db _ rfl ?_ ?_ i hF)
            · intro a
              split <;> rfl
            · intro a ha
              split at ha
              · exact absurd ha (show ("R" : String) ≠ "F" by decide)
              · exact ha
    | opDockingCompleteItem authed iid =>
      exfalso
      simp only [applyOp, dockingCompleteItem] at hF
      split at hF
      · exact hne hF
      · split at hF
        · exact hne hF
        · split at hF
          · exact hne hF
          · rw [statusOfItem_sync] at hF
            refine hne (f_status_from_map _ db _ rfl ?_ ?_ i hF)
            · intro a
              split <;> rfl
            · intro a ha
              split at ha
              · exact absurd ha (show ("R" : String) ≠ "F" by decide)
              · exact ha
    | opOpenSession authed body =>
      exfalso
      simp only [applyOp, openSession] at hF
      split at hF
      · exact hne hF
      · split at hF
        · exact hne hF
        · split at hF
          · exact hne hF
          · split at hF
            · exact hne hF
            · split at hF
              · exact hne hF
              · split at hF
                · rw [statusOfItem_sync] at hF
                  refine hne (f_status_from_map _ db _ rfl ?_ ?_ i hF)
                  · intro a
                    split <;> rfl
                  · intro a ha
                    split at ha
                    · exact absurd ha (show ("P" : String) ≠ "F" by decide)
                    · exact ha
                · exact hne hF
    | opSplitItem iid k =>
      exfalso
      simp only [applyOp, splitItem] at hF
      split at hF
      · exact hne hF
      · split at hF
        · exact hne hF
        · split at hF
          · exact hne hF
          · split at hF
            · exact hne hF
            · refine hne (f_status_from_append _ db _ _ rfl ?_ ?_ ?_ i hF)
              · intro a
                split <;> rfl
              · intro a ha
                split at ha <;> exact ha
              · exact (show ("T" : String) ≠ "F" by decide)
  · intro db authed sid fq force i
    exact completeSession_preserves_status db authed sid fq force i

/-- Order 1 in production with a pending inspection on its only item. -/
def qaApproveDB : DB :=
  { emptyDB with
    orders := [{ id := 1, status := "P", progress := "0/1 items complete",
                 is_stock_run := false }]
    order_items := [qaItem]
    qa_inspections := [{ id := 1, order_item_id := some 1, session_id := none,
                         inspection_type := "final", batch_size := some 5,
                         passed := some 0, inspector_id := none, notes := none }]
    next_item_id := 2
    next_inspection_id := 2 }

/-- C9 amended witness: QA approval does move the concrete item to 'F',
and the gate theorem classifies that operation as allowed; the
session-completion clause instantiated at the concrete database. -/
theorem item_f_gate_amended_witness :
    allowedF (Op.opQaApprove true 1) ∧
    statusOfItem (completeSession qaDB true 1 (some 5) false).1 1 =
      statusOfItem qaDB 1 :=
  ⟨item_f_gate_amended.1 (Op.opQaApprove true 1) qaApproveDB 1 (by decide) rfl,
   item_f_gate_amended.2 qaDB true 1 (some 5) false 1⟩
